import Mathlib

/-
Verification of the cardmarket offer/auction lifecycle.

The repository exposes the same business logic through two parallel stacks:

* a serverless stack (`src/unnamed/part_003`: the offers POST handler over the
  Card schema with `isRFQ`/`minPrice`/`highestBid`, and `src/backend/api/cards.js`:
  the listing-creation handler), and
* an Express stack (`src/backend/routes/offers.js`, `src/backend/routes/payments.js`
  over the `PokemonCard`, `Offer` and `Vendor` models).

Both are embedded below.  Money amounts are rationals, timestamps are integers,
document ids are naturals, and each Mongo collection is an association list from
id to document.  Handlers are modelled from the first line of their body, i.e.
after the framework auth middleware has attached `req.user`; checks the handlers
perform themselves (`canTrade`, seller identity, role-independent guards) are kept.
HTTP status/message pairs are abstracted to the error taxonomy below
(400 validation → `validationError`, 404 → `notFound`, 403 → `forbidden`,
400 duplicate/double-payment → `conflict`, 400 lifecycle → `invalidState`,
payment failure → `paymentError`, caught exception / 500 → `internalError`).
-/

set_option linter.unusedVariables false

/-- Error taxonomy of the HTTP handlers (spec section 7). -/
inductive ErrCls where
  | validationError
  | notFound
  | forbidden
  | conflict
  | invalidState
  | paymentError
  | internalError
  deriving DecidableEq

/-- Listing statuses appearing across the card schemas. -/
inductive CardStatus where
  | active
  | sold
  | expired
  | cancelled
  | draft
  | pending
  deriving DecidableEq

/-- Offer statuses (`offerSchema.status` enum). -/
inductive OfferStatus where
  | pending
  | accepted
  | rejected
  | expired
  deriving DecidableEq

/-- First-match lookup in an id-keyed association list (Mongo `findById`). -/
def lookupId {α : Type} (l : List (Nat × α)) (i : Nat) : Option α :=
  match l with
  | [] => none
  | p :: rest => if p.1 = i then some p.2 else lookupId rest i

/-- Rewrite every document of a collection in place, possibly depending on its id
(used for `save` on a loaded document, `findByIdAndUpdate`, and `updateMany`). -/
def mapVals {α : Type} (g : Nat → α → α) (l : List (Nat × α)) : List (Nat × α) :=
  l.map fun p => (p.1, g p.1 p.2)

/-- Replace the document stored under one id (`doc.save()` / `findByIdAndUpdate`). -/
def setId {α : Type} (l : List (Nat × α)) (i : Nat) (v : α) : List (Nat × α) :=
  mapVals (fun j c => if j = i then v else c) l

/-! ## Serverless offers handler (`src/unnamed/part_003`, offers POST) -/

/-- Highest-bid subdocument on the serverless Card schema
(`highestBid: { amount, bidderId, bidTime }`). -/
structure SBid where
  amount : ℚ
  bidderId : Nat
  bidTime : Int
  deriving DecidableEq

/-- Card document as seen by the serverless offers handler
(`cardSchema` in the offers file: `isRFQ`, `minPrice`, `startingPrice`,
`auctionEndTime`, `highestBid`, `totalOffers`, `status`). -/
structure SCard where
  isRFQ : Bool
  minPrice : Option ℚ
  startingPrice : ℚ
  auctionEndTime : Int
  highestBid : Option SBid
  totalOffers : Nat
  status : CardStatus
  deriving DecidableEq

/-- Offer document of the serverless `offerSchema`
(`cardId`, `bidderId`, `amount`, `status`, `message`). -/
structure SOffer where
  cardId : Nat
  bidderId : Nat
  amount : ℚ
  message : Option String
  status : OfferStatus
  deriving DecidableEq

/-- Persistent state touched by the serverless offers handler; `nextId` stands for
the id Mongo would mint for the next inserted offer. -/
structure ApiState where
  cards : List (Nat × SCard)
  offers : List (Nat × SOffer)
  nextId : Nat
  deriving DecidableEq

/-- Auction floor: `Math.max(card.startingPrice, card.highestBid?.amount || 0)`.
(`x || 0` maps `0` to `0`, so on rationals it is the stored amount itself.) -/
def auctionFloor (c : SCard) : ℚ :=
  max c.startingPrice (match c.highestBid with | some b => b.amount | none => 0)

/-- JS `amount < card.minPrice`: comparison with an `undefined` field is false. -/
def belowMinPrice (minPrice : Option ℚ) (amount : ℚ) : Bool :=
  match minPrice with
  | some m => decide (amount < m)
  | none => false

/-- Shared tail of the serverless offer POST: `offer.save()` followed by the
`card.save()` that branches on `card.isRFQ` (auction: overwrite `highestBid`
with `{amount, bidderId, bidTime: new Date()}` and bump `totalOffers`;
RFQ: bump `totalOffers` only). -/
def apiPersistOffer (st : ApiState) (card : SCard) (bidderId cardId : Nat)
    (amount : ℚ) (msg : Option String) (now : Int) : Except ErrCls Nat × ApiState :=
  let off : SOffer :=
    { cardId := cardId, bidderId := bidderId, amount := amount,
      message := msg, status := OfferStatus.pending }
  let card2 : SCard :=
    if card.isRFQ then
      { card with totalOffers := card.totalOffers + 1 }
    else
      { card with
        highestBid := some { amount := amount, bidderId := bidderId, bidTime := now },
        totalOffers := card.totalOffers + 1 }
  (Except.ok st.nextId,
    { cards := setId st.cards cardId card2,
      offers := st.offers ++ [(st.nextId, off)],
      nextId := st.nextId + 1 })

/-- The offers POST handler of `src/unnamed/part_003` (lines 443-534), after
authentication.  `canTrade` is `req.user.canTrade`.  A `0` id encodes a
missing/falsy JS value in the `!cardId || !bidderId || !amount` check, and
`amount = 0` is the falsy number.  In the RFQ branch the JS comparison
`amount < card.minPrice` is false when `minPrice` is `undefined`.  Note the
auction branch checks the bid floor BEFORE the auction-end check, and the
handler never consults the offer store (no duplicate-offer check). -/
def apiSubmitOffer (st : ApiState) (canTrade : Bool) (bidderId cardId : Nat)
    (amount : ℚ) (msg : Option String) (now : Int) : Except ErrCls Nat × ApiState :=
  if canTrade = false then (Except.error ErrCls.forbidden, st)
  else if cardId = 0 ∨ bidderId = 0 ∨ amount = 0 then (Except.error ErrCls.validationError, st)
  else
    match lookupId st.cards cardId with
    | none => (Except.error ErrCls.notFound, st)
    | some card =>
      if card.status ≠ CardStatus.active then (Except.error ErrCls.invalidState, st)
      else if card.isRFQ then
        if belowMinPrice card.minPrice amount then
          (Except.error ErrCls.validationError, st)
        else apiPersistOffer st card bidderId cardId amount msg now
      else
        if amount ≤ auctionFloor card then (Except.error ErrCls.validationError, st)
        else if now > card.auctionEndTime then (Except.error ErrCls.invalidState, st)
        else apiPersistOffer st card bidderId cardId amount msg now

/-! ## Express stack (`src/backend/routes/offers.js`, `src/backend/routes/payments.js`) -/

/-- `PokemonCard` document (auction-only model in `src/backend/models/PokemonCard.js`:
`seller`, `startingPrice`, `auctionEndTime`, `status`, `highestBid` as an Offer
reference, `totalOffers`). -/
structure RCard where
  seller : Nat
  startingPrice : ℚ
  auctionEndTime : Int
  status : CardStatus
  highestBid : Option Nat
  totalOffers : Nat
  deriving DecidableEq

/-- `Offer` document (`src/backend/models/Offer.js`: `card`, `vendor`, `amount`,
`message`, `status`, `commissionPaid`, `commissionAmount`). -/
structure ROffer where
  card : Nat
  vendor : Nat
  amount : ℚ
  message : Option String
  status : OfferStatus
  commissionPaid : Bool
  commissionAmount : ℚ
  deriving DecidableEq

/-- `Vendor` document fields used by the handlers (`user` reference,
`commissionRate`, `totalLeads`, `totalCommissionPaid`). -/
structure VendorProfile where
  user : Nat
  commissionRate : ℚ
  totalLeads : Nat
  totalCommissionPaid : ℚ
  deriving DecidableEq

/-- Persistent state of the Express stack.  `users` is the set of existing User
ids (needed only for `populate('vendor')`); `nextOfferId` stands for the id
Mongo would mint for the next inserted offer. -/
structure MarketState where
  cards : List (Nat × RCard)
  offers : List (Nat × ROffer)
  vendors : List (Nat × VendorProfile)
  users : List Nat
  nextOfferId : Nat
  deriving DecidableEq

/-- POST `/` of `src/backend/routes/offers.js` (lines 9-72), after the
`auth, requireRole(['vendor'])` middleware.  The duplicate check is
`Offer.findOne({card, vendor, status: {$in: ['pending','accepted']}})`.
The commission rate is the hardcoded `0.03`.  The highest-bid update condition
`!card.highestBid || amount > (card.highestBid.amount || 0)` reads `.amount` off
an unpopulated ObjectId, which is `undefined`, so `|| 0` makes it `amount > 0`. -/
def routesSubmitOffer (st : MarketState) (vendorId cardId : Nat) (amount : ℚ)
    (msg : Option String) (now : Int) : Except ErrCls Nat × MarketState :=
  match lookupId st.cards cardId with
  | none => (Except.error ErrCls.notFound, st)
  | some card =>
    if card.status ≠ CardStatus.active then (Except.error ErrCls.invalidState, st)
    else if now > card.auctionEndTime then (Except.error ErrCls.invalidState, st)
    else if ∃ p ∈ st.offers, p.2.card = cardId ∧ p.2.vendor = vendorId ∧
        (p.2.status = OfferStatus.pending ∨ p.2.status = OfferStatus.accepted) then
      (Except.error ErrCls.conflict, st)
    else
      let commissionRate : ℚ := 3 / 100
      let off : ROffer :=
        { card := cardId, vendor := vendorId, amount := amount, message := msg,
          status := OfferStatus.pending, commissionPaid := false,
          commissionAmount := amount * commissionRate }
      let card2 : RCard :=
        { card with
          totalOffers := card.totalOffers + 1,
          highestBid :=
            if card.highestBid = none ∨ amount > 0 then some st.nextOfferId
            else card.highestBid }
      (Except.ok st.nextOfferId,
        { st with
          cards := setId st.cards cardId card2,
          offers := st.offers ++ [(st.nextOfferId, off)],
          nextOfferId := st.nextOfferId + 1 })

/-- PATCH `/:id/accept` of `src/backend/routes/offers.js` (lines 103-142).
A missing populated card makes `offer.card.seller` throw, caught as a 500
(`internalError`).  After the seller and auction-end checks: the offer is saved
as `accepted`, the card is updated to `sold` with `highestBid` pointing at the
offer, and `updateMany({card, _id: {$ne: offer._id}}, {status: 'rejected'})`
rejects every OTHER offer of the card, with no filter on their current status. -/
def acceptOffer (st : MarketState) (offerId requesterId : Nat) (now : Int) :
    Except ErrCls Nat × MarketState :=
  match lookupId st.offers offerId with
  | none => (Except.error ErrCls.notFound, st)
  | some off =>
    match lookupId st.cards off.card with
    | none => (Except.error ErrCls.internalError, st)
    | some card =>
      if requesterId ≠ card.seller then (Except.error ErrCls.forbidden, st)
      else if now ≤ card.auctionEndTime then (Except.error ErrCls.invalidState, st)
      else
        let offers1 := setId st.offers offerId { off with status := OfferStatus.accepted }
        let cards1 := setId st.cards off.card
          { card with status := CardStatus.sold, highestBid := some offerId }
        let offers2 := mapVals
          (fun i o =>
            if i ≠ offerId ∧ o.card = off.card then { o with status := OfferStatus.rejected }
            else o)
          offers1
        (Except.ok offerId, { st with offers := offers2, cards := cards1 })

/-- PATCH `/:id/reject` of `src/backend/routes/offers.js` (lines 145-165):
seller check, then the offer is saved as `rejected` - no guard on its current
status and no other document is touched. -/
def rejectOffer (st : MarketState) (offerId requesterId : Nat) :
    Except ErrCls Nat × MarketState :=
  match lookupId st.offers offerId with
  | none => (Except.error ErrCls.notFound, st)
  | some off =>
    match lookupId st.cards off.card with
    | none => (Except.error ErrCls.internalError, st)
    | some card =>
      if requesterId ≠ card.seller then (Except.error ErrCls.forbidden, st)
      else
        (Except.ok offerId,
          { st with offers := setId st.offers offerId { off with status := OfferStatus.rejected } })

/-- POST `/commission` of `src/backend/routes/payments.js` (lines 10-68).
`stripeSucceeds` is the outcome of the external payment collaborator; the
returned Bool records whether that collaborator was invoked.  The status and
`commissionPaid` guards run before the Stripe call; evaluating the Stripe call's
arguments dereferences the populated card and vendor user, so their absence
throws (a 500) without invoking Stripe.  On success the offer is saved with
`commissionPaid := true` and `Vendor.findByIdAndUpdate(offer.vendor._id, {$inc:
{totalLeads: 1, totalCommissionPaid: commissionAmount}})` runs (a no-op when no
Vendor document has that id); on a non-succeeded payment nothing is mutated. -/
def payCommission (st : MarketState) (offerId : Nat) (stripeSucceeds : Bool) :
    (Except ErrCls Nat × MarketState) × Bool :=
  match lookupId st.offers offerId with
  | none => ((Except.error ErrCls.notFound, st), false)
  | some off =>
    if off.status ≠ OfferStatus.accepted then ((Except.error ErrCls.invalidState, st), false)
    else if off.commissionPaid then ((Except.error ErrCls.conflict, st), false)
    else
      match lookupId st.cards off.card with
      | none => ((Except.error ErrCls.internalError, st), false)
      | some _ =>
        if off.vendor ∉ st.users then ((Except.error ErrCls.internalError, st), false)
        else if stripeSucceeds then
          let offers1 := setId st.offers offerId { off with commissionPaid := true }
          let vendors1 := mapVals
            (fun i v =>
              if i = off.vendor then
                { v with
                  totalLeads := v.totalLeads + 1,
                  totalCommissionPaid := v.totalCommissionPaid + off.commissionAmount }
              else v)
            st.vendors
          ((Except.ok offerId, { st with offers := offers1, vendors := vendors1 }), true)
        else ((Except.error ErrCls.paymentError, st), true)

/-- Commission amount as the spec describes it: `amount × commissionRate`, the
rate resolved from the bidder's vendor profile when present, else the default
3%.  This is the spec-side definition, written for comparison with what
`routesSubmitOffer` actually stores. -/
def specCommission (vendorRate : Option ℚ) (amount : ℚ) : ℚ :=
  amount * vendorRate.getD (3 / 100)

/-- Commission rate the spec would resolve for a user: `Vendor.findOne({user})`. -/
def vendorRateFor (st : MarketState) (userId : Nat) : Option ℚ :=
  (st.vendors.find? (fun p => p.2.user = userId)).map (fun p => p.2.commissionRate)

/-! ## Listing creation (`src/backend/api/cards.js`, POST) -/

/-- Request body of the cards POST in `src/backend/api/cards.js`.  Optional
fields are `Option`; an empty string / `0` encodes a falsy JS value for the
required text/number fields. -/
structure CreatePayload where
  cardName : String
  set : String
  year : Int
  condition : String
  rarity : String
  startingPrice : ℚ
  description : Option String
  frontImage : String
  backImage : Option String
  sellerId : Nat
  isGraded : Bool
  grade : Option ℚ
  gradingCompany : Option String
  isRFQ : Bool
  minPrice : Option ℚ
  auctionDuration : Option ℚ
  auctionEndTime : Option Int
  deriving DecidableEq

/-- Card document constructed by the cards POST of `src/backend/api/cards.js`. -/
structure ApiCard where
  cardName : String
  set : String
  year : Int
  condition : String
  rarity : String
  startingPrice : ℚ
  description : Option String
  frontImage : String
  backImage : Option String
  sellerId : Nat
  isGraded : Bool
  grade : Option ℚ
  gradingCompany : Option String
  isRFQ : Bool
  minPrice : Option ℚ
  auctionDuration : Option ℚ
  auctionEndTime : Option Int
  status : CardStatus
  totalOffers : Nat
  deriving DecidableEq

/-- `grade === undefined || grade === null || grade < 1 || grade > 10`, negated. -/
def gradeValid : Option ℚ → Bool
  | none => false
  | some g => decide (1 ≤ g ∧ g ≤ 10)

/-- `!gradingCompany || !['PSA','TAG','CGC','Beckett'].includes(gradingCompany)`,
negated (the empty string is not in the list, so falsiness needs no extra case). -/
def gradingCompanyValid : Option String → Bool
  | none => false
  | some c => c == "PSA" || c == "TAG" || c == "CGC" || c == "Beckett"

/-- `minPrice === undefined || minPrice === null || minPrice < 0`, negated. -/
def minPriceValid : Option ℚ → Bool
  | none => false
  | some m => decide (0 ≤ m)

/-- `auctionDuration === undefined || === null || < 0 || > 48`, negated. -/
def durationValid : Option ℚ → Bool
  | none => false
  | some d => decide (0 ≤ d ∧ d ≤ 48)

/-- `new Date(auctionEndTime) <= now` (only reached when the field is present). -/
def endTimeNotFuture (t : Option Int) (now : Int) : Bool :=
  match t with
  | none => true
  | some t => decide (t ≤ now)

/-- The `new Card({...})` construction: grading fields kept only when `isGraded`,
`minPrice` kept only when `isRFQ`, auction fields kept only when not `isRFQ`. -/
def buildCard (p : CreatePayload) : ApiCard :=
  { cardName := p.cardName, set := p.set, year := p.year, condition := p.condition,
    rarity := p.rarity, startingPrice := p.startingPrice, description := p.description,
    frontImage := p.frontImage, backImage := p.backImage, sellerId := p.sellerId,
    isGraded := p.isGraded,
    grade := if p.isGraded then p.grade else none,
    gradingCompany := if p.isGraded then p.gradingCompany else none,
    isRFQ := p.isRFQ,
    minPrice := if p.isRFQ then p.minPrice else none,
    auctionDuration := if p.isRFQ then none else p.auctionDuration,
    auctionEndTime := if p.isRFQ then none else p.auctionEndTime,
    status := CardStatus.active, totalOffers := 0 }

/-- The cards POST handler of `src/backend/api/cards.js` (lines 209-335):
required-fields check, grading checks, then the RFQ/auction validation -
when `isRFQ`, any present auction field is rejected; when not `isRFQ`,
`minPrice` is never validated and `buildCard` drops it. -/
def createCard (p : CreatePayload) (now : Int) : Except ErrCls ApiCard :=
  if p.cardName == "" || p.set == "" || p.year == 0 || p.condition == "" ||
      p.rarity == "" || p.startingPrice == 0 || p.frontImage == "" || p.sellerId == 0 then
    Except.error ErrCls.validationError
  else if p.isGraded && !gradeValid p.grade then
    Except.error ErrCls.validationError
  else if p.isGraded && !gradingCompanyValid p.gradingCompany then
    Except.error ErrCls.validationError
  else if p.isRFQ then
    if !minPriceValid p.minPrice then
      Except.error ErrCls.validationError
    else if !(p.auctionDuration == none) || !(p.auctionEndTime == none) then
      Except.error ErrCls.validationError
    else
      Except.ok (buildCard p)
  else
    if !durationValid p.auctionDuration then
      Except.error ErrCls.validationError
    else if p.auctionEndTime == none then
      Except.error ErrCls.validationError
    else if endTimeNotFuture p.auctionEndTime now then
      Except.error ErrCls.validationError
    else
      Except.ok (buildCard p)

/-! ## Concrete fixtures -/

/-- An active auction card: starting price 100, no bid yet, auction ends at 1000. -/
def exAuctionCard : SCard :=
  { isRFQ := false, minPrice := none, startingPrice := 100, auctionEndTime := 1000,
    highestBid := none, totalOffers := 0, status := CardStatus.active }

/-- One active auction card, empty offer store. -/
def exApiState : ApiState :=
  { cards := [(1, exAuctionCard)], offers := [], nextId := 10 }

/-- An active RFQ card with minimum price 50. -/
def exRfqCard : SCard :=
  { isRFQ := true, minPrice := some 50, startingPrice := 60, auctionEndTime := 0,
    highestBid := none, totalOffers := 0, status := CardStatus.active }

/-- One active RFQ card, empty offer store. -/
def exRfqState : ApiState :=
  { cards := [(2, exRfqCard)], offers := [], nextId := 20 }

/-- Serverless state where bidder 7 already has a pending offer (id 3) on the
auction card 1. -/
def exDupState : ApiState :=
  { cards := [(1, exAuctionCard)],
    offers := [(3, { cardId := 1, bidderId := 7, amount := 120, message := none,
                     status := OfferStatus.pending })],
    nextId := 10 }

/-- Express-stack auction card: seller 5, starting price 100, auction ends at 1000. -/
def exRCard : RCard :=
  { seller := 5, startingPrice := 100, auctionEndTime := 1000,
    status := CardStatus.active, highestBid := none, totalOffers := 0 }

/-- A second Express-stack auction card, owned by seller 6. -/
def exRCard2 : RCard :=
  { seller := 6, startingPrice := 80, auctionEndTime := 1000,
    status := CardStatus.active, highestBid := none, totalOffers := 0 }

/-- Pending offer by vendor 7 on card 1 (commission 120 x 3% = 18/5). -/
def exPendingROffer : ROffer :=
  { card := 1, vendor := 7, amount := 120, message := none,
    status := OfferStatus.pending, commissionPaid := false, commissionAmount := 18 / 5 }

/-- Rejected offer by vendor 7 on card 1. -/
def exRejectedROffer : ROffer :=
  { card := 1, vendor := 7, amount := 120, message := none,
    status := OfferStatus.rejected, commissionPaid := false, commissionAmount := 18 / 5 }

/-- Accepted, commission-unpaid offer by vendor 7 on card 1. -/
def exAcceptedROffer : ROffer :=
  { card := 1, vendor := 7, amount := 120, message := none,
    status := OfferStatus.accepted, commissionPaid := false, commissionAmount := 18 / 5 }

/-- Express-stack state where vendor 7 has a pending offer on card 1. -/
def exMarketDup : MarketState :=
  { cards := [(1, exRCard)], offers := [(3, exPendingROffer)],
    vendors := [], users := [5, 7], nextOfferId := 10 }

/-- Express-stack state where vendor 7's only offer on card 1 was rejected. -/
def exMarketRebid : MarketState :=
  { cards := [(1, exRCard)], offers := [(3, exRejectedROffer)],
    vendors := [], users := [5, 7], nextOfferId := 10 }

/-- Express-stack state for the accept scenario: cards 1 (seller 5) and 2
(seller 6); pending offers 3 (vendor 7) and 4 (vendor 8) on card 1, and a
pending offer 6 by vendor 7 on card 2. -/
def exMarketAccept : MarketState :=
  { cards := [(1, exRCard), (2, exRCard2)],
    offers := [(3, exPendingROffer),
               (4, { card := 1, vendor := 8, amount := 130, message := none,
                     status := OfferStatus.pending, commissionPaid := false,
                     commissionAmount := 39 / 10 }),
               (6, { card := 2, vendor := 7, amount := 90, message := none,
                     status := OfferStatus.pending, commissionPaid := false,
                     commissionAmount := 27 / 10 })],
    vendors := [], users := [5, 6, 7, 8], nextOfferId := 10 }

/-- Vendor profile of user 7 with a 5% commission rate. -/
def exVendorProfile : VendorProfile :=
  { user := 7, commissionRate := 1 / 20, totalLeads := 0, totalCommissionPaid := 0 }

/-- Express-stack state with an accepted, unpaid offer 3 on card 1 and vendor
profile 9 for user 7: ready for a commission payment. -/
def exMarketPay : MarketState :=
  { cards := [(1, exRCard)], offers := [(3, exAcceptedROffer)],
    vendors := [(9, exVendorProfile)], users := [5, 7], nextOfferId := 10 }

/-- Express-stack state where bidder 7 has a 5% vendor profile and no offers yet. -/
def exMarketVendorRate : MarketState :=
  { cards := [(1, exRCard)], offers := [],
    vendors := [(9, exVendorProfile)], users := [5, 7], nextOfferId := 10 }

/-- Creation payload carrying BOTH an RFQ minimum price and auction fields,
with `isRFQ` unset: every required base field is present and valid. -/
def exMixedPayload : CreatePayload :=
  { cardName := "Charizard", set := "Base", year := 1999, condition := "mint",
    rarity := "rare", startingPrice := 100, description := none,
    frontImage := "front.jpg", backImage := none, sellerId := 5,
    isGraded := false, grade := none, gradingCompany := none,
    isRFQ := false, minPrice := some 50, auctionDuration := some 24,
    auctionEndTime := some 1000 }

/-- Creation payload with `isRFQ` set together with a (forbidden) auction end
time; every required base field is present and valid. -/
def exRfqConflictPayload : CreatePayload :=
  { cardName := "Blastoise", set := "Base", year := 1999, condition := "mint",
    rarity := "rare", startingPrice := 100, description := none,
    frontImage := "front.jpg", backImage := none, sellerId := 5,
    isGraded := false, grade := none, gradingCompany := none,
    isRFQ := true, minPrice := some 50, auctionDuration := none,
    auctionEndTime := some 1000 }

/-! ## General association-list lemmas -/

theorem lookupId_mapVals {α : Type} (g : Nat → α → α) (l : List (Nat × α)) (j : Nat) :
    lookupId (mapVals g l) j = (lookupId l j).map (g j) := by
  induction l with
  | nil => rfl
  | cons p rest ih =>
    by_cases h : p.1 = j
    · subst h
      simp [mapVals, lookupId]
    · simp only [mapVals, List.map_cons, lookupId, h, if_false] at ih ⊢
      exact ih

theorem lookupId_setId {α : Type} (l : List (Nat × α)) (i j : Nat) (v : α) :
    lookupId (setId l i v) j = (lookupId l j).map (fun c => if j = i then v else c) :=
  lookupId_mapVals _ l j

theorem lookupId_append_left {α : Type} {l : List (Nat × α)} (l2 : List (Nat × α))
    {j : Nat} {v : α} (h : lookupId l j = some v) : lookupId (l ++ l2) j = some v := by
  induction l with
  | nil => simp [lookupId] at h
  | cons p rest ih =>
    by_cases hp : p.1 = j
    · simpa [lookupId, hp] using h
    · simp only [lookupId, hp, if_false, List.cons_append] at h ⊢
      exact ih h

/-! ## Claims on the serverless offer submission -/

/-- Claim C1: for an active auction-mode listing whose end time has not passed,
an offer with amount at most max(startingPrice, current highest-bid amount) is
rejected with a ValidationError and the state is unchanged, while an offer with
a strictly greater amount is accepted, persisted with status pending, and
becomes the listing's new highest-bid snapshot (amount, bidder, bid time),
with the total-offers counter incremented. -/
theorem auction_bid_floor_C1 (st : ApiState) (bidderId cardId : Nat) (amount : ℚ)
    (msg : Option String) (now : Int) (card : SCard)
    (hcard : lookupId st.cards cardId = some card)
    (hactive : card.status = CardStatus.active)
    (hmode : card.isRFQ = false)
    (hopen : ¬ now > card.auctionEndTime)
    (hsp : 0 ≤ card.startingPrice)
    (hcid : cardId ≠ 0) (hbid : bidderId ≠ 0) :
    (amount ≤ auctionFloor card →
      apiSubmitOffer st true bidderId cardId amount msg now =
        (Except.error ErrCls.validationError, st)) ∧
    (auctionFloor card < amount →
      apiSubmitOffer st true bidderId cardId amount msg now =
        (Except.ok st.nextId,
          { cards := setId st.cards cardId
              { card with
                highestBid := some { amount := amount, bidderId := bidderId, bidTime := now },
                totalOffers := card.totalOffers + 1 },
            offers := st.offers ++ [(st.nextId,
              { cardId := cardId, bidderId := bidderId, amount := amount,
                message := msg, status := OfferStatus.pending })],
            nextId := st.nextId + 1 })) := by
  constructor
  · intro hle
    by_cases hz : amount = 0
    · simp [apiSubmitOffer, hz]
    · simp [apiSubmitOffer, hcard, hactive, hmode, hcid, hbid, hz, hle]
  · intro hgt
    have h0 : (0 : ℚ) < amount :=
      lt_of_le_of_lt (le_trans hsp (le_max_left _ _)) hgt
    have hz : amount ≠ 0 := ne_of_gt h0
    have hle' : ¬ amount ≤ auctionFloor card := not_le.mpr hgt
    simp [apiSubmitOffer, apiPersistOffer, hcard, hactive, hmode, hcid, hbid, hz,
      hle', hopen]

/-- Witness for C1 at a concrete input: card 1 (floor 100), bid 150 at time 500. -/
theorem auction_bid_floor_C1_witness :
    ((150 : ℚ) ≤ auctionFloor exAuctionCard →
      apiSubmitOffer exApiState true 7 1 150 none 500 =
        (Except.error ErrCls.validationError, exApiState)) ∧
    (auctionFloor exAuctionCard < 150 →
      apiSubmitOffer exApiState true 7 1 150 none 500 =
        (Except.ok exApiState.nextId,
          { cards := setId exApiState.cards 1
              { exAuctionCard with
                highestBid := some { amount := 150, bidderId := 7, bidTime := 500 },
                totalOffers := exAuctionCard.totalOffers + 1 },
            offers := exApiState.offers ++ [(exApiState.nextId,
              { cardId := 1, bidderId := 7, amount := 150,
                message := none, status := OfferStatus.pending })],
            nextId := exApiState.nextId + 1 })) :=
  auction_bid_floor_C1 exApiState 7 1 150 none 500 exAuctionCard rfl rfl rfl
    (by decide) (by norm_num [exAuctionCard]) (by decide) (by decide)

/-- Claim C6: for an active RFQ-mode listing, an offer with amount below the
minimum price is rejected with a ValidationError and the state is unchanged;
an offer with amount at least the minimum price is accepted, persisted with
status pending, increments the listing's total-offers counter by exactly one,
and leaves the highest-bid snapshot untouched. -/
theorem rfq_min_price_C6 (st : ApiState) (bidderId cardId : Nat) (amount : ℚ)
    (msg : Option String) (now : Int) (card : SCard) (m : ℚ)
    (hcard : lookupId st.cards cardId = some card)
    (hactive : card.status = CardStatus.active)
    (hmode : card.isRFQ = true)
    (hmin : card.minPrice = some m)
    (hmpos : 0 < m)
    (hcid : cardId ≠ 0) (hbid : bidderId ≠ 0) :
    (amount < m →
      apiSubmitOffer st true bidderId cardId amount msg now =
        (Except.error ErrCls.validationError, st)) ∧
    (m ≤ amount →
      apiSubmitOffer st true bidderId cardId amount msg now =
        (Except.ok st.nextId,
          { cards := setId st.cards cardId
              { card with totalOffers := card.totalOffers + 1 },
            offers := st.offers ++ [(st.nextId,
              { cardId := cardId, bidderId := bidderId, amount := amount,
                message := msg, status := OfferStatus.pending })],
            nextId := st.nextId + 1 })) := by
  constructor
  · intro hlt
    by_cases hz : amount = 0
    · simp [apiSubmitOffer, hz]
    · simp [apiSubmitOffer, belowMinPrice, hcard, hactive, hmode, hmin, hcid, hbid, hz, hlt]
  · intro hge
    have h0 : (0 : ℚ) < amount := lt_of_lt_of_le hmpos hge
    have hz : amount ≠ 0 := ne_of_gt h0
    have hlt' : ¬ amount < m := not_lt.mpr hge
    simp [apiSubmitOffer, apiPersistOffer, belowMinPrice, hcard, hactive, hmode, hmin,
      hcid, hbid, hz, hlt']

/-- Witness for C6 at a concrete input: RFQ card 2 (minimum price 50), offer 60. -/
theorem rfq_min_price_C6_witness :
    ((60 : ℚ) < 50 →
      apiSubmitOffer exRfqState true 7 2 60 none 500 =
        (Except.error ErrCls.validationError, exRfqState)) ∧
    ((50 : ℚ) ≤ 60 →
      apiSubmitOffer exRfqState true 7 2 60 none 500 =
        (Except.ok exRfqState.nextId,
          { cards := setId exRfqState.cards 2
              { exRfqCard with totalOffers := exRfqCard.totalOffers + 1 },
            offers := exRfqState.offers ++ [(exRfqState.nextId,
              { cardId := 2, bidderId := 7, amount := 60,
                message := none, status := OfferStatus.pending })],
            nextId := exRfqState.nextId + 1 })) :=
  rfq_min_price_C6 exRfqState 7 2 60 none 500 exRfqCard 50 rfl rfl rfl rfl
    (by norm_num) (by decide) (by decide)

/-- Counterexample to C9: card 1 is an active auction whose end time 1000 is
strictly before the current time 2000, yet an offer of 50 (at most the floor
100) fails with a ValidationError from the floor check - not with InvalidState
(auction ended) - because the handler checks the floor first. -/
theorem ended_auction_error_class_C9_cex :
    (2000 : Int) > exAuctionCard.auctionEndTime ∧
    exAuctionCard.status = CardStatus.active ∧
    lookupId exApiState.cards 1 = some exAuctionCard ∧
    apiSubmitOffer exApiState true 7 1 50 none 2000 =
      (Except.error ErrCls.validationError, exApiState) := by
  refine ⟨by decide, rfl, rfl, ?_⟩
  norm_num [apiSubmitOffer, exApiState, exAuctionCard, auctionFloor, lookupId]

/-- Claim C9 as amended: for an active auction-mode listing whose end time is
strictly before the current time, an offer with amount strictly above the floor
fails with InvalidState (auction ended), but an offer with amount at most the
floor fails with a ValidationError, because the floor check runs before the
auction-ended check; the state is unchanged either way. -/
theorem ended_auction_error_class_C9 (st : ApiState) (bidderId cardId : Nat)
    (amount : ℚ) (msg : Option String) (now : Int) (card : SCard)
    (hcard : lookupId st.cards cardId = some card)
    (hactive : card.status = CardStatus.active)
    (hmode : card.isRFQ = false)
    (hended : now > card.auctionEndTime)
    (hsp : 0 ≤ card.startingPrice)
    (hcid : cardId ≠ 0) (hbid : bidderId ≠ 0) :
    (auctionFloor card < amount →
      apiSubmitOffer st true bidderId cardId amount msg now =
        (Except.error ErrCls.invalidState, st)) ∧
    (amount ≤ auctionFloor card →
      apiSubmitOffer st true bidderId cardId amount msg now =
        (Except.error ErrCls.validationError, st)) := by
  constructor
  · intro hgt
    have h0 : (0 : ℚ) < amount :=
      lt_of_le_of_lt (le_trans hsp (le_max_left _ _)) hgt
    have hz : amount ≠ 0 := ne_of_gt h0
    have hle' : ¬ amount ≤ auctionFloor card := not_le.mpr hgt
    simp [apiSubmitOffer, hcard, hactive, hmode, hcid, hbid, hz, hle', hended]
  · intro hle
    by_cases hz : amount = 0
    · simp [apiSubmitOffer, hz]
    · simp [apiSubmitOffer, hcard, hactive, hmode, hcid, hbid, hz, hle]

/-- Witness for the amended C9: on the ended auction card 1, a bid of 150
(above the floor 100) gets InvalidState, a bid of 50 gets ValidationError. -/
theorem ended_auction_error_class_C9_witness :
    (auctionFloor exAuctionCard < 150 →
      apiSubmitOffer exApiState true 7 1 150 none 2000 =
        (Except.error ErrCls.invalidState, exApiState)) ∧
    ((150 : ℚ) ≤ auctionFloor exAuctionCard →
      apiSubmitOffer exApiState true 7 1 150 none 2000 =
        (Except.error ErrCls.validationError, exApiState)) :=
  ended_auction_error_class_C9 exApiState 7 1 150 none 2000 exAuctionCard rfl rfl rfl
    (by decide) (by norm_num [exAuctionCard]) (by decide) (by decide)

/-- Counterexample to C5: in the serverless offers handler, bidder 7 already has
a pending offer (id 3) on card 1, yet a second submission by the same bidder is
accepted and persists a brand-new offer - there is no duplicate check and no
Conflict. -/
theorem duplicate_offer_conflict_C5_cex :
    lookupId exDupState.offers 3 =
      some { cardId := 1, bidderId := 7, amount := 120, message := none,
             status := OfferStatus.pending } ∧
    (apiSubmitOffer exDupState true 7 1 150 none 500).1 = Except.ok 10 ∧
    (apiSubmitOffer exDupState true 7 1 150 none 500).2.offers =
      exDupState.offers ++ [(10,
        { cardId := 1, bidderId := 7, amount := 150, message := none,
          status := OfferStatus.pending })] := by
  refine ⟨rfl, ?_, ?_⟩ <;>
    norm_num [apiSubmitOffer, apiPersistOffer, exDupState, exAuctionCard,
      auctionFloor, lookupId]

/-- Claim C5 as amended: the duplicate-offer guard lives only in the Express
offers route - there, a bidder with an existing pending or accepted offer on the
listing gets a Conflict and no new offer is created (the serverless handler has
no such check, as the counterexample shows). -/
theorem duplicate_offer_conflict_C5 (st : MarketState) (vendorId cardId : Nat)
    (amount : ℚ) (msg : Option String) (now : Int) (card : RCard)
    (hcard : lookupId st.cards cardId = some card)
    (hactive : card.status = CardStatus.active)
    (hopen : ¬ now > card.auctionEndTime)
    (i : Nat) (o : ROffer) (hmem : (i, o) ∈ st.offers)
    (hoc : o.card = cardId) (hov : o.vendor = vendorId)
    (hos : o.status = OfferStatus.pending ∨ o.status = OfferStatus.accepted) :
    routesSubmitOffer st vendorId cardId amount msg now =
      (Except.error ErrCls.conflict, st) := by
  have hex : ∃ p ∈ st.offers, p.2.card = cardId ∧ p.2.vendor = vendorId ∧
      (p.2.status = OfferStatus.pending ∨ p.2.status = OfferStatus.accepted) :=
    ⟨(i, o), hmem, hoc, hov, hos⟩
  simp [routesSubmitOffer, hcard, hactive, hopen, hex]

/-- Witness for the amended C5: vendor 7 already holds pending offer 3 on card 1,
so a fresh submission is refused with Conflict and the state is unchanged. -/
theorem duplicate_offer_conflict_C5_witness :
    routesSubmitOffer exMarketDup 7 1 150 none 500 =
      (Except.error ErrCls.conflict, exMarketDup) :=
  duplicate_offer_conflict_C5 exMarketDup 7 1 150 none 500 exRCard rfl rfl
    (by decide) 3 exPendingROffer (by simp [exMarketDup]) rfl rfl (Or.inl rfl)

/-- Claim C10: in the Express offers route, a bidder all of whose offers on the
listing are rejected or expired is not stopped by the duplicate-offer guard:
submission never fails with Conflict (the guard filters on status pending or
accepted only). -/
theorem rebid_after_rejection_C10 (st : MarketState) (vendorId cardId : Nat)
    (amount : ℚ) (msg : Option String) (now : Int)
    (h : ∀ p ∈ st.offers, p.2.card = cardId → p.2.vendor = vendorId →
      p.2.status = OfferStatus.rejected ∨ p.2.status = OfferStatus.expired) :
    (routesSubmitOffer st vendorId cardId amount msg now).1 ≠
      Except.error ErrCls.conflict := by
  unfold routesSubmitOffer
  cases hc : lookupId st.cards cardId with
  | none => simp
  | some card =>
    by_cases h1 : card.status ≠ CardStatus.active
    · simp [h1]
    · by_cases h2 : now > card.auctionEndTime
      · simp [h1, h2]
      · have hex : ¬ ∃ p ∈ st.offers, p.2.card = cardId ∧ p.2.vendor = vendorId ∧
            (p.2.status = OfferStatus.pending ∨ p.2.status = OfferStatus.accepted) := by
          rintro ⟨p, hp, hpc, hpv, hps⟩
          rcases h p hp hpc hpv with h3 | h3 <;> rcases hps with h4 | h4 <;>
            simp [h3] at h4
        simp [h1, h2, hex]

/-- Witness for C10: vendor 7's only offer on card 1 is rejected, and a new
submission does not produce a Conflict. -/
theorem rebid_after_rejection_C10_witness :
    (routesSubmitOffer exMarketRebid 7 1 150 none 500).1 ≠
      Except.error ErrCls.conflict :=
  rebid_after_rejection_C10 exMarketRebid 7 1 150 none 500 (by decide)

/-- Claim C2: accepting an offer on listing L requires the requester to be L's
seller (otherwise Forbidden with no state change); on success it marks the offer
accepted, marks L sold with its highest-bid reference pointing at the accepted
offer, turns every other pending offer on L into rejected, and leaves offers of
every other listing untouched. -/
theorem accept_offer_effects_C2 (st : MarketState) (offerId requesterId : Nat)
    (now : Int) (o : ROffer) (ho : lookupId st.offers offerId = some o)
    (c : RCard) (hc : lookupId st.cards o.card = some c) :
    (requesterId ≠ c.seller →
      acceptOffer st offerId requesterId now = (Except.error ErrCls.forbidden, st)) ∧
    (requesterId = c.seller → now > c.auctionEndTime →
      (acceptOffer st offerId requesterId now).1 = Except.ok offerId ∧
      lookupId (acceptOffer st offerId requesterId now).2.offers offerId =
        some { o with status := OfferStatus.accepted } ∧
      lookupId (acceptOffer st offerId requesterId now).2.cards o.card =
        some { c with status := CardStatus.sold, highestBid := some offerId } ∧
      (∀ i o2, i ≠ offerId → lookupId st.offers i = some o2 →
        o2.card = o.card → o2.status = OfferStatus.pending →
        lookupId (acceptOffer st offerId requesterId now).2.offers i =
          some { o2 with status := OfferStatus.rejected }) ∧
      (∀ i o2, lookupId st.offers i = some o2 → o2.card ≠ o.card →
        lookupId (acceptOffer st offerId requesterId now).2.offers i = some o2)) := by
  constructor
  · intro hne
    simp [acceptOffer, ho, hc, hne]
  · intro hseller hnow
    have hnle : ¬ now ≤ c.auctionEndTime := not_le.mpr hnow
    have hacc : acceptOffer st offerId requesterId now =
        (Except.ok offerId,
          { st with
            offers := mapVals
              (fun i o2 =>
                if i ≠ offerId ∧ o2.card = o.card then { o2 with status := OfferStatus.rejected }
                else o2)
              (setId st.offers offerId { o with status := OfferStatus.accepted }),
            cards := setId st.cards o.card
              { c with status := CardStatus.sold, highestBid := some offerId } }) := by
      simp [acceptOffer, ho, hc, hseller, hnle]
    refine ⟨by rw [hacc], ?_, ?_, ?_, ?_⟩
    · rw [hacc]
      simp [lookupId_mapVals, lookupId_setId, ho]
    · rw [hacc]
      simp [lookupId_setId, hc]
    · intro i o2 hi hlo hcard hpend
      rw [hacc]
      simp [lookupId_mapVals, lookupId_setId, hlo, hi, hcard]
    · intro i o2 hlo hcard
      have hi : i ≠ offerId := by
        intro hEq
        subst hEq
        rw [ho] at hlo
        cases hlo
        exact hcard rfl
      rw [hacc]
      simp [lookupId_mapVals, lookupId_setId, hlo, hi, hcard]

/-- Witness for C2: seller 5 accepts offer 3 on card 1 after the auction end. -/
theorem accept_offer_effects_C2_witness :
    (acceptOffer exMarketAccept 3 5 2000).1 = Except.ok 3 ∧
    lookupId (acceptOffer exMarketAccept 3 5 2000).2.offers 3 =
      some { exPendingROffer with status := OfferStatus.accepted } ∧
    lookupId (acceptOffer exMarketAccept 3 5 2000).2.cards exPendingROffer.card =
      some { exRCard with status := CardStatus.sold, highestBid := some 3 } ∧
    (∀ i o2, i ≠ 3 → lookupId exMarketAccept.offers i = some o2 →
      o2.card = exPendingROffer.card → o2.status = OfferStatus.pending →
      lookupId (acceptOffer exMarketAccept 3 5 2000).2.offers i =
        some { o2 with status := OfferStatus.rejected }) ∧
    (∀ i o2, lookupId exMarketAccept.offers i = some o2 →
      o2.card ≠ exPendingROffer.card →
      lookupId (acceptOffer exMarketAccept 3 5 2000).2.offers i = some o2) :=
  (accept_offer_effects_C2 exMarketAccept 3 5 2000 exPendingROffer rfl exRCard rfl).2
    rfl (by decide)

/-- Counterexample to C4: offer 3 on card 1 is already in the terminal status
rejected, yet the seller's accept call succeeds and moves it to accepted -
accept has no guard on the offer's current status. -/
theorem offer_status_transitions_C4_cex :
    (lookupId exMarketRebid.offers 3).map ROffer.status = some OfferStatus.rejected ∧
    (acceptOffer exMarketRebid 3 5 2000).1 = Except.ok 3 ∧
    (lookupId (acceptOffer exMarketRebid 3 5 2000).2.offers 3).map ROffer.status =
      some OfferStatus.accepted := by
  refine ⟨rfl, ?_, ?_⟩ <;>
    simp [acceptOffer, exMarketRebid, exRejectedROffer, exRCard, lookupId,
      setId, mapVals]

/-- Claim C4 as amended: submit and pay-commission never change the status of
any stored offer, but accept and reject do so with no guard on the current
status: a successful accept forces its target offer to accepted and every other
offer of the same listing to rejected whatever statuses they were in, and a
successful reject forces its target to rejected, so accepted, rejected and
expired are not terminal under accept/reject. -/
theorem offer_status_transitions_C4 (st : MarketState)
    (vendorId cardId oid req : Nat) (amount : ℚ) (msg : Option String)
    (now : Int) (b : Bool) (i : Nat) (o : ROffer)
    (hi : lookupId st.offers i = some o)
    (ot : ROffer) (ho : lookupId st.offers oid = some ot)
    (c : RCard) (hc : lookupId st.cards ot.card = some c)
    (hreq : req = c.seller) (hend : now > c.auctionEndTime) :
    ((lookupId (routesSubmitOffer st vendorId cardId amount msg now).2.offers i).map
        ROffer.status = some o.status) ∧
    ((lookupId (payCommission st oid b).1.2.offers i).map ROffer.status =
        some o.status) ∧
    ((lookupId (rejectOffer st oid req).2.offers oid).map ROffer.status =
        some OfferStatus.rejected) ∧
    ((lookupId (acceptOffer st oid req now).2.offers oid).map ROffer.status =
        some OfferStatus.accepted) ∧
    (i ≠ oid → o.card = ot.card →
      (lookupId (acceptOffer st oid req now).2.offers i).map ROffer.status =
        some OfferStatus.rejected) := by
  have hnle : ¬ now ≤ c.auctionEndTime := not_le.mpr hend
  refine ⟨?_, ?_, ?_, ?_, ?_⟩
  · unfold routesSubmitOffer
    cases hcc : lookupId st.cards cardId with
    | none => simp [hi]
    | some card =>
      by_cases h1 : card.status ≠ CardStatus.active
      · simp [h1, hi]
      · by_cases h2 : now > card.auctionEndTime
        · simp [h1, h2, hi]
        · by_cases h3 : ∃ p ∈ st.offers, p.2.card = cardId ∧ p.2.vendor = vendorId ∧
              (p.2.status = OfferStatus.pending ∨ p.2.status = OfferStatus.accepted)
          · simp [h1, h2, h3, hi]
          · simp [h1, h2, h3, lookupId_append_left _ hi]
  · by_cases h1 : ot.status ≠ OfferStatus.accepted
    · simp [payCommission, ho, h1, hi]
    · by_cases h2 : ot.commissionPaid
      · simp [payCommission, ho, h1, h2, hi]
      · by_cases h3 : ot.vendor ∈ st.users
        · cases b with
          | false => simp [payCommission, ho, h1, h2, hc, h3, hi]
          | true =>
            by_cases hio : i = oid
            · subst hio
              rw [hi] at ho
              cases ho
              simp [payCommission, hi, h1, h2, hc, h3, lookupId_setId]
            · simp [payCommission, ho, h1, h2, hc, h3, lookupId_setId, hi, hio]
        · simp [payCommission, ho, h1, h2, hc, h3, hi]
  · simp [rejectOffer, ho, hc, hreq, lookupId_setId]
  · simp [acceptOffer, ho, hc, hreq, hnle, lookupId_mapVals, lookupId_setId]
  · intro hio hcardEq
    simp [acceptOffer, ho, hc, hreq, hnle, lookupId_mapVals, lookupId_setId, hi,
      hio, hcardEq]

/-- Witness for the amended C4 on the concrete accept scenario: submit and
pay-commission leave offer 4's status pending, seller 5's reject and accept of
offer 3 force its status, and accept also rejects the sibling offer 4. -/
theorem offer_status_transitions_C4_witness :
    ((lookupId (routesSubmitOffer exMarketAccept 7 1 150 none 2000).2.offers 4).map
        ROffer.status = some OfferStatus.pending) ∧
    ((lookupId (payCommission exMarketAccept 3 true).1.2.offers 4).map
        ROffer.status = some OfferStatus.pending) ∧
    ((lookupId (rejectOffer exMarketAccept 3 5).2.offers 3).map ROffer.status =
        some OfferStatus.rejected) ∧
    ((lookupId (acceptOffer exMarketAccept 3 5 2000).2.offers 3).map ROffer.status =
        some OfferStatus.accepted) ∧
    ((lookupId (acceptOffer exMarketAccept 3 5 2000).2.offers 4).map ROffer.status =
        some OfferStatus.rejected) :=
  have h := offer_status_transitions_C4 exMarketAccept 7 1 3 5 150 none 2000 true 4
    { card := 1, vendor := 8, amount := 130, message := none,
      status := OfferStatus.pending, commissionPaid := false,
      commissionAmount := 39 / 10 }
    rfl exPendingROffer rfl exRCard rfl rfl (by decide)
  ⟨h.1, h.2.1, h.2.2.1, h.2.2.2.1, h.2.2.2.2 (by decide) rfl⟩

/-- Claim C3: pay-commission fails with InvalidState when the offer is not
accepted; with an accepted, unpaid offer, a failing external payment mutates
nothing (the collaborator was invoked once), and after one successful payment
(which records commissionPaid = true) a second call returns Conflict without
invoking the external collaborator again and without further mutation. -/
theorem commission_idempotent_C3 (st : MarketState) (offerId : Nat) (b b2 : Bool)
    (o : ROffer) (ho : lookupId st.offers offerId = some o) :
    (o.status ≠ OfferStatus.accepted →
      payCommission st offerId b = ((Except.error ErrCls.invalidState, st), false)) ∧
    (o.status = OfferStatus.accepted → o.commissionPaid = false →
      ∀ c, lookupId st.cards o.card = some c → o.vendor ∈ st.users →
      (payCommission st offerId false = ((Except.error ErrCls.paymentError, st), true)) ∧
      ((payCommission st offerId true).1.1 = Except.ok offerId ∧
       (payCommission st offerId true).2 = true ∧
       lookupId (payCommission st offerId true).1.2.offers offerId =
         some { o with commissionPaid := true } ∧
       payCommission (payCommission st offerId true).1.2 offerId b2 =
         ((Except.error ErrCls.conflict, (payCommission st offerId true).1.2), false))) := by
  constructor
  · intro hne
    simp [payCommission, ho, hne]
  · intro hacc hpaid c hc hu
    have hpay : payCommission st offerId true =
        ((Except.ok offerId,
          { st with
            offers := setId st.offers offerId { o with commissionPaid := true },
            vendors := mapVals
              (fun i v =>
                if i = o.vendor then
                  { v with
                    totalLeads := v.totalLeads + 1,
                    totalCommissionPaid := v.totalCommissionPaid + o.commissionAmount }
                else v)
              st.vendors }), true) := by
      simp [payCommission, ho, hacc, hpaid, hc, hu]
    have hlook : lookupId (payCommission st offerId true).1.2.offers offerId =
        some { o with commissionPaid := true } := by
      rw [hpay]
      simp [lookupId_setId, ho]
    refine ⟨?_, by rw [hpay], by rw [hpay], hlook, ?_⟩
    · simp [payCommission, ho, hacc, hpaid, hc, hu]
    · revert hlook
      generalize (payCommission st offerId true).1.2 = st2
      intro hlook
      simp [payCommission, hlook, hacc]

/-- Witness for C3: accepted unpaid offer 3 on card 1 in `exMarketPay`; a failed
payment mutates nothing, a successful one flips commissionPaid, and the retry
is refused with Conflict without invoking the collaborator. -/
theorem commission_idempotent_C3_witness :
    (payCommission exMarketPay 3 false =
      ((Except.error ErrCls.paymentError, exMarketPay), true)) ∧
    ((payCommission exMarketPay 3 true).1.1 = Except.ok 3 ∧
     (payCommission exMarketPay 3 true).2 = true ∧
     lookupId (payCommission exMarketPay 3 true).1.2.offers 3 =
       some { exAcceptedROffer with commissionPaid := true } ∧
     payCommission (payCommission exMarketPay 3 true).1.2 3 false =
       ((Except.error ErrCls.conflict, (payCommission exMarketPay 3 true).1.2), false)) :=
  (commission_idempotent_C3 exMarketPay 3 true false exAcceptedROffer rfl).2 rfl rfl
    exRCard rfl (by decide)

/-- Counterexample to C7: user 7 has a vendor profile with commissionRate 5%,
yet submitting an offer of 100 stores commissionAmount 3 - the hardcoded 3%
default - instead of the 5 the profile rate would give. -/
theorem commission_rate_C7_cex :
    vendorRateFor exMarketVendorRate 7 = some (1 / 20) ∧
    (lookupId (routesSubmitOffer exMarketVendorRate 7 1 100 none 500).2.offers 10).map
        ROffer.commissionAmount = some 3 ∧
    specCommission (vendorRateFor exMarketVendorRate 7) 100 = 5 ∧
    (3 : ℚ) ≠ 5 := by
  refine ⟨rfl, ?_, ?_, by norm_num⟩
  · norm_num [routesSubmitOffer, exMarketVendorRate, exRCard, lookupId, setId, mapVals]
  · norm_num [specCommission, vendorRateFor, exMarketVendorRate, exVendorProfile]

/-- Claim C7 as amended: the stored commission of a newly created offer is
amount x 0.03, the hardcoded default rate - the bidder's vendor profile is never
consulted - and the commission amount is fixed at creation: accept, reject and
pay-commission all leave every stored offer's commissionAmount unchanged. -/
theorem commission_rate_C7 (st : MarketState) (vendorId cardId oid req : Nat)
    (amount : ℚ) (msg : Option String) (now : Int) (b : Bool) (x : Nat)
    (hok : (routesSubmitOffer st vendorId cardId amount msg now).1 = Except.ok x) :
    ((routesSubmitOffer st vendorId cardId amount msg now).2.offers =
      st.offers ++ [(st.nextOfferId,
        { card := cardId, vendor := vendorId, amount := amount, message := msg,
          status := OfferStatus.pending, commissionPaid := false,
          commissionAmount := amount * (3 / 100) })]) ∧
    (∀ i o, lookupId st.offers i = some o →
      ((lookupId (acceptOffer st oid req now).2.offers i).map ROffer.commissionAmount =
        some o.commissionAmount) ∧
      ((lookupId (rejectOffer st oid req).2.offers i).map ROffer.commissionAmount =
        some o.commissionAmount) ∧
      ((lookupId (payCommission st oid b).1.2.offers i).map ROffer.commissionAmount =
        some o.commissionAmount)) := by
  constructor
  · unfold routesSubmitOffer at hok ⊢
    cases hc : lookupId st.cards cardId with
    | none => simp [hc] at hok
    | some card =>
      simp only [hc] at hok ⊢
      by_cases h1 : card.status ≠ CardStatus.active
      · simp [h1] at hok
      · by_cases h2 : now > card.auctionEndTime
        · simp [h1, h2] at hok
        · by_cases h3 : ∃ p ∈ st.offers, p.2.card = cardId ∧ p.2.vendor = vendorId ∧
              (p.2.status = OfferStatus.pending ∨ p.2.status = OfferStatus.accepted)
          · simp [h1, h2, h3] at hok
          · simp [h1, h2, h3]
  · intro i o hi
    refine ⟨?_, ?_, ?_⟩
    · unfold acceptOffer
      cases ho2 : lookupId st.offers oid with
      | none => simp [ho2, hi]
      | some ot =>
        cases hc2 : lookupId st.cards ot.card with
        | none => simp [ho2, hc2, hi]
        | some c2 =>
          by_cases hr : req = c2.seller
          · by_cases ht : now ≤ c2.auctionEndTime
            · simp [ho2, hc2, hr, ht, hi]
            · by_cases hio : i = oid
              · subst hio
                rw [hi] at ho2
                cases ho2
                simp [hi, hc2, hr, ht, lookupId_mapVals, lookupId_setId]
              · simp only [ho2, hc2, hr, ht]
                simp [lookupId_mapVals, lookupId_setId, hi, hio]
                split_ifs <;> rfl
          · simp [ho2, hc2, hr, hi]
    · unfold rejectOffer
      cases ho2 : lookupId st.offers oid with
      | none => simp [ho2, hi]
      | some ot =>
        cases hc2 : lookupId st.cards ot.card with
        | none => simp [ho2, hc2, hi]
        | some c2 =>
          by_cases hr : req = c2.seller
          · by_cases hio : i = oid
            · subst hio
              rw [hi] at ho2
              cases ho2
              simp [hi, hc2, hr, lookupId_setId]
            · simp [ho2, hc2, hr, lookupId_setId, hi, hio]
          · simp [ho2, hc2, hr, hi]
    · cases ho2 : lookupId st.offers oid with
      | none => simp [payCommission, ho2, hi]
      | some ot =>
        by_cases h1 : ot.status ≠ OfferStatus.accepted
        · simp [payCommission, ho2, h1, hi]
        · by_cases h2 : ot.commissionPaid
          · simp [payCommission, ho2, h1, h2, hi]
          · cases hc2 : lookupId st.cards ot.card with
            | none => simp [payCommission, ho2, h1, h2, hc2, hi]
            | some c2 =>
              by_cases h3 : ot.vendor ∈ st.users
              · cases b with
                | false => simp [payCommission, ho2, h1, h2, hc2, h3, hi]
                | true =>
                  by_cases hio : i = oid
                  · subst hio
                    rw [hi] at ho2
                    cases ho2
                    simp [payCommission, hi, h1, h2, hc2, h3, lookupId_setId]
                  · simp [payCommission, ho2, h1, h2, hc2, h3, lookupId_setId, hi, hio]
              · simp [payCommission, ho2, h1, h2, hc2, h3, hi]

/-- Witness for the amended C7: on `exMarketRebid`, submitting 100 stores
commission 100 x 3%, and accept/reject/pay leave stored commissions unchanged. -/
theorem commission_rate_C7_witness :
    ((routesSubmitOffer exMarketRebid 7 1 100 none 500).2.offers =
      exMarketRebid.offers ++ [(exMarketRebid.nextOfferId,
        { card := 1, vendor := 7, amount := 100, message := none,
          status := OfferStatus.pending, commissionPaid := false,
          commissionAmount := 100 * (3 / 100) })]) ∧
    (∀ i o, lookupId exMarketRebid.offers i = some o →
      ((lookupId (acceptOffer exMarketRebid 3 5 500).2.offers i).map
          ROffer.commissionAmount = some o.commissionAmount) ∧
      ((lookupId (rejectOffer exMarketRebid 3 5).2.offers i).map
          ROffer.commissionAmount = some o.commissionAmount) ∧
      ((lookupId (payCommission exMarketRebid 3 true).1.2.offers i).map
          ROffer.commissionAmount = some o.commissionAmount)) :=
  commission_rate_C7 exMarketRebid 7 1 3 5 100 none 500 true 10
    (by simp [routesSubmitOffer, exMarketRebid, exRejectedROffer, exRCard, lookupId])

/-- Counterexample to C8: a payload with BOTH a minimum price and auction fields
but `isRFQ` unset is not rejected - creation succeeds (201), silently dropping
the minimum price from the stored card. -/
theorem mode_exclusive_C8_cex :
    exMixedPayload.minPrice = some 50 ∧
    exMixedPayload.auctionEndTime = some 1000 ∧
    createCard exMixedPayload 0 = Except.ok (buildCard exMixedPayload) ∧
    (buildCard exMixedPayload).minPrice = none := by
  refine ⟨rfl, rfl, ?_, rfl⟩
  rfl

/-- Claim C8 as amended: when `isRFQ` is set, any payload carrying an auction
duration or auction end time is rejected with a ValidationError; when `isRFQ`
is not set, a supplied minimum price is silently dropped rather than rejected.
Either way no created listing carries both a minimum price and an auction end
time. -/
theorem mode_exclusive_C8 (p : CreatePayload) (now : Int) :
    (p.isRFQ = true → (p.auctionDuration ≠ none ∨ p.auctionEndTime ≠ none) →
      createCard p now = Except.error ErrCls.validationError) ∧
    (∀ c, createCard p now = Except.ok c →
      ¬(c.minPrice ≠ none ∧ c.auctionEndTime ≠ none)) := by
  constructor
  · intro hrfq hfields
    unfold createCard
    split_ifs <;> simp_all [buildCard]
  · intro c hc
    unfold createCard at hc
    split_ifs at hc with h1 h2 h3 h4 h5 h6 <;>
      cases hc <;>
      · rintro ⟨hmin, hend⟩
        simp_all [buildCard]

/-- Witness for the amended C8: the RFQ payload carrying an auction end time is
rejected, while the non-RFQ mixed payload is accepted with its minimum price
dropped, so the created card does not hold both mode fields. -/
theorem mode_exclusive_C8_witness :
    createCard exRfqConflictPayload 0 = Except.error ErrCls.validationError ∧
    ¬((buildCard exMixedPayload).minPrice ≠ none ∧
      (buildCard exMixedPayload).auctionEndTime ≠ none) :=
  ⟨(mode_exclusive_C8 exRfqConflictPayload 0).1 rfl (Or.inr (by decide)),
   (mode_exclusive_C8 exMixedPayload 0).2 (buildCard exMixedPayload) rfl⟩
